import Mathlib

/-!
Verification of the geometric core of the tf-retinanet repository:
anchor shifting (backend/anchors.py, shift), box delta decoding
(backend/anchors.py, bbox_transform_inv), box clipping
(layers/clip_boxes.py, ClipBoxes.call) and the TensorFlow version check
(utils/version.py).  Tensors are modelled as nested lists of rationals;
TensorFlow elementwise broadcasting is modelled explicitly, and operations
that can fail at graph-execution time return Option.
-/

/-- A box in (x1, y1, x2, y2) corner form, coordinates as exact rationals. -/
structure Box where
  x1 : ℚ
  y1 : ℚ
  x2 : ℚ
  y2 : ℚ
deriving DecidableEq, Repr

/-- Dummy box used as a default for out-of-range list indexing. -/
def dummyBox : Box := ⟨0, 0, 0, 0⟩

/-- Embedding of `shift(image_shape, features_shape, stride, anchors)` from
backend/anchors.py.  `image_shape = (H, W)` uses entries 0 and 1 of the image
shape, `features_shape = (Hf, Wf)`.  The meshgrid with default xy indexing
followed by a row-major reshape enumerates grid points with the x index
varying fastest; each anchor template is translated by
(shift_x, shift_y, shift_x, shift_y), and the (K, A, 4) result is reshaped
row-major to (K*A, 4). -/
def shift (image_shape : ℕ × ℕ) (features_shape : ℕ × ℕ) (stride : ℚ)
    (anchors : List Box) : List Box :=
  let offset_x : ℚ := ((image_shape.2 : ℚ) - ((features_shape.2 : ℚ) - 1) * stride) / 2
  let offset_y : ℚ := ((image_shape.1 : ℚ) - ((features_shape.1 : ℚ) - 1) * stride) / 2
  let shift_x : List ℚ :=
    (List.range features_shape.2).map (fun j : ℕ => (j : ℚ) * stride + offset_x)
  let shift_y : List ℚ :=
    (List.range features_shape.1).map (fun i : ℕ => (i : ℚ) * stride + offset_y)
  let shifts : List (ℚ × ℚ) := shift_y.flatMap (fun sy => shift_x.map (fun sx => (sx, sy)))
  shifts.flatMap (fun s => anchors.map (fun a =>
    ⟨a.x1 + s.1, a.y1 + s.2, a.x2 + s.1, a.y2 + s.2⟩))

/-- A rank-2 tensor: a rectangular list of rows of rationals. -/
abbrev Arr2 : Type := List (List ℚ)

/-- A rank-3 tensor (B, N, 4) of boxes in (x1, y1, x2, y2) coordinate order. -/
abbrev Arr3 : Type := List (List (List ℚ))

/-- Number of columns of a rank-2 tensor (length of its first row). -/
def cols (a : Arr2) : ℕ := (a.headD []).length

/-- Entry access for a rank-2 tensor, defaulting to 0 out of range. -/
def ent2 (a : Arr2) (i j : ℕ) : ℚ := (a.getD i []).getD j 0

/-- Entry access for a rank-3 tensor, defaulting to 0 out of range. -/
def ent3 (a : Arr3) (i j k : ℕ) : ℚ := ((a.getD i []).getD j []).getD k 0

/-- NumPy/TensorFlow broadcasting of one dimension: sizes are compatible when
they are equal or one of them is 1 (which is then stretched to the other). -/
def bcastDim (n m : ℕ) : Option ℕ :=
  if n = m then some n else if n = 1 then some m else if m = 1 then some n else none

/-- Read entry (i, j) of a rank-2 tensor as broadcast to a larger shape:
a dimension of size 1 repeats its single index. -/
def bget (a : Arr2) (i j : ℕ) : ℚ :=
  let row := a.getD (if a.length = 1 then 0 else i) []
  row.getD (if row.length = 1 then 0 else j) 0

/-- Broadcasting elementwise binary operation on rank-2 tensors, as performed
by TensorFlow: fails (graph error) when the shapes are broadcast-incompatible. -/
def binop2 (f : ℚ → ℚ → ℚ) (a b : Arr2) : Option Arr2 :=
  match bcastDim a.length b.length, bcastDim (cols a) (cols b) with
  | some r, some c =>
      some ((List.range r).map (fun i => (List.range c).map (fun j => f (bget a i j) (bget b i j))))
  | _, _ => none

/-- Slice `a[:, :, k]` of a (B, N, 4) tensor, giving a (B, N) tensor. -/
def slice3 (a : Arr3) (k : ℕ) : Arr2 :=
  a.map (fun row => row.map (fun box => box.getD k 0))

/-- Elementwise `a * s + m` for scalars s, m (no broadcasting involved). -/
def affineScale (a : Arr2) (s m : ℚ) : Arr2 :=
  a.map (fun row => row.map (fun v => v * s + m))

/-- `keras.backend.stack([a, b, c, d], axis=2)` on four (B, N) tensors,
producing a (B, N, 4) tensor.  TensorFlow requires all stacked tensors to
share one shape; it fails otherwise. -/
def stack_axis2 (a b c d : Arr2) : Option Arr3 :=
  if b.length = a.length ∧ cols b = cols a ∧ c.length = a.length ∧ cols c = cols a ∧
      d.length = a.length ∧ cols d = cols a then
    some ((List.range a.length).map (fun i => (List.range (cols a)).map (fun j =>
      [ent2 a i j, ent2 b i j, ent2 c i j, ent2 d i j])))
  else none

/-- Embedding of `bbox_transform_inv(boxes, deltas, mean, std)` from
backend/anchors.py.  `none` for mean or std selects the Python defaults
[0, 0, 0, 0] and [0.2, 0.2, 0.2, 0.2].  The elementwise arithmetic follows
the source line by line; each cross-tensor operation broadcasts and can fail
on incompatible shapes. -/
def bbox_transform_inv (boxes deltas : Arr3) (mean? std? : Option (List ℚ)) : Option Arr3 := do
  let mean := mean?.getD [0, 0, 0, 0]
  let std := std?.getD [1/5, 1/5, 1/5, 1/5]
  let width ← binop2 (· - ·) (slice3 boxes 2) (slice3 boxes 0)
  let height ← binop2 (· - ·) (slice3 boxes 3) (slice3 boxes 1)
  let tx1 ← binop2 (· * ·) (affineScale (slice3 deltas 0) (std.getD 0 0) (mean.getD 0 0)) width
  let x_1 ← binop2 (· + ·) (slice3 boxes 0) tx1
  let ty1 ← binop2 (· * ·) (affineScale (slice3 deltas 1) (std.getD 1 0) (mean.getD 1 0)) height
  let y_1 ← binop2 (· + ·) (slice3 boxes 1) ty1
  let tx2 ← binop2 (· * ·) (affineScale (slice3 deltas 2) (std.getD 2 0) (mean.getD 2 0)) width
  let x_2 ← binop2 (· + ·) (slice3 boxes 2) tx2
  let ty2 ← binop2 (· * ·) (affineScale (slice3 deltas 3) (std.getD 3 0) (mean.getD 3 0)) height
  let y_2 ← binop2 (· + ·) (slice3 boxes 3) ty2
  stack_axis2 x_1 y_1 x_2 y_2

/-- `tf.clip_by_value(t, lo, hi)`: implemented as min with hi, then max
with lo. -/
def clip_by_value (t lo hi : ℚ) : ℚ := max (min t hi) lo

/-- Embedding of `ClipBoxes.call` from layers/clip_boxes.py.  The image shape
is the full shape tuple of the image tensor; with channels_first the spatial
axes are 2 and 3, otherwise (channels_last, the Keras default) they are
1 and 2.  Each of the four coordinates is clipped independently and the
slices are restacked along axis 2. -/
def clipBoxesCall (channelsFirst : Bool) (imageShape : List ℕ) (boxes : Arr3) : Arr3 :=
  let shape : List ℚ := imageShape.map (fun n : ℕ => (n : ℚ))
  let height : ℚ := shape.getD (if channelsFirst then 2 else 1) 0
  let width : ℚ := shape.getD (if channelsFirst then 3 else 2) 0
  let x_1 := (slice3 boxes 0).map (fun row => row.map (fun v => clip_by_value v 0 (width - 1)))
  let y_1 := (slice3 boxes 1).map (fun row => row.map (fun v => clip_by_value v 0 (height - 1)))
  let x_2 := (slice3 boxes 2).map (fun row => row.map (fun v => clip_by_value v 0 (width - 1)))
  let y_2 := (slice3 boxes 3).map (fun row => row.map (fun v => clip_by_value v 0 (height - 1)))
  (List.range x_1.length).map (fun i => (List.range (cols x_1)).map (fun j =>
    [ent2 x_1 i j, ent2 y_1 i j, ent2 x_2 i j, ent2 y_2 i j]))

/-- `MINIMUM_TF_VERSION` from utils/version.py. -/
def MINIMUM_TF_VERSION : ℕ × ℕ × ℕ := (1, 14, 0)

/-- `BLACKLISTED_TF_VERSIONS` from utils/version.py. -/
def BLACKLISTED_TF_VERSIONS : List (ℕ × ℕ × ℕ) := [(2, 0, 0), (2, 0, 1)]

/-- Python comparison `a >= b` on two 3-tuples of ints: lexicographic on the
first differing component, true when all components are equal. -/
def pyTupleGe (a b : ℕ × ℕ × ℕ) : Bool :=
  if a.1 ≠ b.1 then decide (b.1 < a.1)
  else if a.2.1 ≠ b.2.1 then decide (b.2.1 < a.2.1)
  else decide (b.2.2 ≤ a.2.2)

/-- Embedding of `tf_version_ok(minimum_tf_version, blacklisted)` from
utils/version.py, parameterized by the parsed TensorFlow version triple `v`
(the source reads it from tf.version.VERSION). -/
def tf_version_ok (v minimum : ℕ × ℕ × ℕ) (blacklisted : List (ℕ × ℕ × ℕ)) : Bool :=
  pyTupleGe v minimum && !(blacklisted.contains v)

/-- The specification notion of lexicographic greater-or-equal on version
triples, written out as a proposition. -/
def lexGe (v m : ℕ × ℕ × ℕ) : Prop :=
  m.1 < v.1 ∨ (m.1 = v.1 ∧ (m.2.1 < v.2.1 ∨ (m.2.1 = v.2.1 ∧ m.2.2 ≤ v.2.2)))

instance (v m : ℕ × ℕ × ℕ) : Decidable (lexGe v m) := by
  unfold lexGe
  infer_instance

/-- Rectangularity of a (B, N) rank-2 tensor. -/
def wf2 (B N : ℕ) (a : Arr2) : Prop :=
  a.length = B ∧ ∀ r ∈ a, r.length = N

/-- Rectangularity of a (B, N, 4) rank-3 tensor. -/
def wf3 (B N : ℕ) (a : Arr3) : Prop :=
  a.length = B ∧ ∀ r ∈ a, r.length = N ∧ ∀ box ∈ r, box.length = 4

instance (B N : ℕ) (a : Arr2) : Decidable (wf2 B N a) := by
  unfold wf2
  infer_instance

instance (B N : ℕ) (a : Arr3) : Decidable (wf3 B N a) := by
  unfold wf3
  infer_instance

lemma length_flatMap_map {α β γ : Type} (xs : List α) (ys : List β) (g : α → β → γ) :
    (xs.flatMap (fun x => ys.map (g x))).length = xs.length * ys.length := by
  induction xs with
  | nil => simp
  | cons x xs ih => simp [List.flatMap_cons, ih, Nat.succ_mul, Nat.add_comm]

lemma getElem?_flatMap_map {α β γ : Type} (xs : List α) (ys : List β) (g : α → β → γ)
    (i j : ℕ) (dx : α) (dy : β) (hi : i < xs.length) (hj : j < ys.length) :
    (xs.flatMap (fun x => ys.map (g x)))[i * ys.length + j]? =
      some (g (xs.getD i dx) (ys.getD j dy)) := by
  induction xs generalizing i with
  | nil => simp at hi
  | cons x xs ih =>
    cases i with
    | zero =>
      rw [List.flatMap_cons, List.getD_cons_zero]
      rw [List.getElem?_append_left (by simpa using hj)]
      simp [List.getElem?_map, List.getElem?_eq_getElem hj, List.getD_eq_getElem ys dy hj]
    | succ i =>
      have hi' : i < xs.length := by simpa using hi
      rw [List.flatMap_cons, List.getD_cons_succ]
      have hlen : (ys.map (g x)).length ≤ (i + 1) * ys.length + j := by
        simp [Nat.succ_mul]
        omega
      rw [List.getElem?_append_right hlen]
      have harith : (i + 1) * ys.length + j - (ys.map (g x)).length = i * ys.length + j := by
        simp [Nat.succ_mul]
        omega
      rw [harith, ih i hi']

lemma getD_flatMap_map {α β γ : Type} (xs : List α) (ys : List β) (g : α → β → γ)
    (i j : ℕ) (dx : α) (dy : β) (d : γ) (hi : i < xs.length) (hj : j < ys.length) :
    (xs.flatMap (fun x => ys.map (g x))).getD (i * ys.length + j) d =
      g (xs.getD i dx) (ys.getD j dy) := by
  rw [List.getD_eq_getElem?_getD, getElem?_flatMap_map xs ys g i j dx dy hi hj]
  rfl

lemma getD_map_range {γ : Type} (n : ℕ) (f : ℕ → γ) (i : ℕ) (d : γ) (hi : i < n) :
    ((List.range n).map f).getD i d = f i := by
  rw [List.getD_eq_getElem _ _ (by simpa using hi)]
  simp

/-- Master indexing lemma for `shift`: the box at flat index
k * A + a is the anchor template a translated by the grid shift of cell k,
where the x index of cell k is k mod Wf and its y index is k div Wf. -/
lemma shift_getD (H W Hf Wf : ℕ) (stride : ℚ) (anchors : List Box) (k a : ℕ)
    (hk : k < Hf * Wf) (ha : a < anchors.length) :
    (shift (H, W) (Hf, Wf) stride anchors).getD (k * anchors.length + a) dummyBox =
      { x1 := (anchors.getD a dummyBox).x1 +
          (((k % Wf : ℕ) : ℚ) * stride + ((W : ℚ) - ((Wf : ℚ) - 1) * stride) / 2),
        y1 := (anchors.getD a dummyBox).y1 +
          (((k / Wf : ℕ) : ℚ) * stride + ((H : ℚ) - ((Hf : ℚ) - 1) * stride) / 2),
        x2 := (anchors.getD a dummyBox).x2 +
          (((k % Wf : ℕ) : ℚ) * stride + ((W : ℚ) - ((Wf : ℚ) - 1) * stride) / 2),
        y2 := (anchors.getD a dummyBox).y2 +
          (((k / Wf : ℕ) : ℚ) * stride + ((H : ℚ) - ((Hf : ℚ) - 1) * stride) / 2) } := by
  have hWf : 0 < Wf := by
    rcases Nat.eq_zero_or_pos Wf with h | h
    · subst h
      simp at hk
    · exact h
  have hi : k / Wf < Hf := by
    rw [Nat.div_lt_iff_lt_mul hWf]
    omega
  have hj : k % Wf < Wf := Nat.mod_lt _ hWf
  simp only [shift]
  have hshiftslen :
      (((List.range Hf).map (fun i : ℕ => (i : ℚ) * stride +
          ((H : ℚ) - ((Hf : ℚ) - 1) * stride) / 2)).flatMap
        (fun sy => ((List.range Wf).map (fun j : ℕ => (j : ℚ) * stride +
          ((W : ℚ) - ((Wf : ℚ) - 1) * stride) / 2)).map (fun sx => (sx, sy)))).length =
      Hf * Wf := by
    rw [length_flatMap_map]
    simp
  rw [getD_flatMap_map _ anchors _ k a (0, 0) dummyBox dummyBox
    (by rw [hshiftslen]; exact hk) ha]
  have hk2 : k = (k / Wf) * ((List.range Wf).map (fun j : ℕ => (j : ℚ) * stride +
      ((W : ℚ) - ((Wf : ℚ) - 1) * stride) / 2)).length + k % Wf := by
    simp only [List.length_map, List.length_range]
    rw [Nat.mul_comm]
    exact (Nat.div_add_mod k Wf).symm
  rw [show (((List.range Hf).map (fun i : ℕ => (i : ℚ) * stride +
        ((H : ℚ) - ((Hf : ℚ) - 1) * stride) / 2)).flatMap
      (fun sy => ((List.range Wf).map (fun j : ℕ => (j : ℚ) * stride +
        ((W : ℚ) - ((Wf : ℚ) - 1) * stride) / 2)).map (fun sx => (sx, sy)))).getD k (0, 0) =
      ((fun sy sx => ((sx : ℚ), (sy : ℚ)))
        (((List.range Hf).map (fun i : ℕ => (i : ℚ) * stride +
          ((H : ℚ) - ((Hf : ℚ) - 1) * stride) / 2)).getD (k / Wf) 0)
        (((List.range Wf).map (fun j : ℕ => (j : ℚ) * stride +
          ((W : ℚ) - ((Wf : ℚ) - 1) * stride) / 2)).getD (k % Wf) 0)) from by
    conv_lhs => rw [hk2]
    exact getD_flatMap_map _ _ _ (k / Wf) (k % Wf) 0 0 (0, 0) (by simpa using hi)
      (by simpa using hj)]
  rw [getD_map_range Hf _ _ _ hi, getD_map_range Wf _ _ _ hj]

/-- Length of the output of `shift`, with no validity assumptions at all. -/
lemma shift_length (H W Hf Wf : ℕ) (stride : ℚ) (anchors : List Box) :
    (shift (H, W) (Hf, Wf) stride anchors).length = Hf * Wf * anchors.length := by
  simp only [shift]
  rw [length_flatMap_map, length_flatMap_map]
  simp [Nat.mul_assoc]

/-- Canonical rectangular (B, N) tensor with entries given by g. -/
def mk2 (B N : ℕ) (g : ℕ → ℕ → ℚ) : Arr2 :=
  (List.range B).map (fun i => (List.range N).map (fun j => g i j))

lemma mk2_length (B N : ℕ) (g : ℕ → ℕ → ℚ) : (mk2 B N g).length = B := by
  simp [mk2]

lemma wf2_mk2 (B N : ℕ) (g : ℕ → ℕ → ℚ) : wf2 B N (mk2 B N g) := by
  refine ⟨by simp [mk2], ?_⟩
  intro r hr
  simp only [mk2, List.mem_map] at hr
  obtain ⟨i, _, rfl⟩ := hr
  simp

lemma cols_mk2 (B N : ℕ) (g : ℕ → ℕ → ℚ) :
    cols (mk2 B N g) = if B = 0 then 0 else N := by
  cases B with
  | zero => simp [mk2, cols]
  | succ b => simp [mk2, cols, List.range_succ_eq_map]

lemma ent2_mk2 (B N : ℕ) (g : ℕ → ℕ → ℚ) (i j : ℕ) (hi : i < B) (hj : j < N) :
    ent2 (mk2 B N g) i j = g i j := by
  simp only [ent2, mk2]
  rw [getD_map_range B _ _ _ hi, getD_map_range N _ _ _ hj]

lemma bget_eq (B N : ℕ) (a : Arr2) (h : wf2 B N a) (i j : ℕ) (hi : i < B) (hj : j < N) :
    bget a i j = ent2 a i j := by
  obtain ⟨hlen, hrows⟩ := h
  have hia : i < a.length := by omega
  have hrowlen : (a.getD i []).length = N := by
    apply hrows
    rw [List.getD_eq_getElem _ _ hia]
    exact List.getElem_mem _
  simp only [bget, ent2]
  have e1 : (if a.length = 1 then 0 else i) = i := by
    by_cases h1 : a.length = 1
    · simp only [if_pos h1]
      omega
    · simp only [if_neg h1]
  rw [e1]
  have e2 : (if (a.getD i []).length = 1 then 0 else j) = j := by
    by_cases h2 : (a.getD i []).length = 1
    · simp only [if_pos h2]
      omega
    · simp only [if_neg h2]
  rw [e2]

lemma cols_of_wf2 (B N : ℕ) (a : Arr2) (h : wf2 B N a) (hB : 0 < B) : cols a = N := by
  obtain ⟨hlen, hrows⟩ := h
  cases a with
  | nil => simp at hlen; omega
  | cons r t => exact hrows r (by simp)

lemma binop2_mk2 (f : ℚ → ℚ → ℚ) (B N : ℕ) (a b : Arr2) (ga gb : ℕ → ℕ → ℚ)
    (hwa : wf2 B N a) (hwb : wf2 B N b)
    (hga : ∀ i < B, ∀ j < N, ent2 a i j = ga i j)
    (hgb : ∀ i < B, ∀ j < N, ent2 b i j = gb i j) :
    binop2 f a b = some (mk2 B N (fun i j => f (ga i j) (gb i j))) := by
  rcases Nat.eq_zero_or_pos B with hB | hB
  · subst hB
    have ha0 : a = [] := List.length_eq_zero.mp hwa.1
    have hb0 : b = [] := List.length_eq_zero.mp hwb.1
    subst ha0
    subst hb0
    simp [binop2, bcastDim, cols, mk2]
  · have hca : cols a = N := cols_of_wf2 B N a hwa hB
    have hcb : cols b = N := cols_of_wf2 B N b hwb hB
    have e1 : bcastDim B B = some B := by simp [bcastDim]
    have e2 : bcastDim N N = some N := by simp [bcastDim]
    have estep : binop2 f a b = some ((List.range B).map (fun i =>
        (List.range N).map (fun j => f (bget a i j) (bget b i j)))) := by
      unfold binop2
      rw [hwa.1, hwb.1, hca, hcb, e1, e2]
    rw [estep]
    congr 1
    simp only [mk2]
    apply List.map_congr_left
    intro i hi
    apply List.map_congr_left
    intro j hj
    rw [List.mem_range] at hi
    rw [List.mem_range] at hj
    rw [bget_eq B N a hwa i j hi hj, bget_eq B N b hwb i j hi hj, hga i hi j hj, hgb i hi j hj]

lemma wf2_slice3 (B N : ℕ) (a : Arr3) (k : ℕ) (h : wf3 B N a) : wf2 B N (slice3 a k) := by
  obtain ⟨hl, hr⟩ := h
  refine ⟨by simp [slice3, hl], ?_⟩
  intro r hrm
  simp only [slice3, List.mem_map] at hrm
  obtain ⟨r0, hr0, rfl⟩ := hrm
  simp [(hr r0 hr0).1]

lemma ent2_slice3 (B N : ℕ) (a : Arr3) (k : ℕ) (h : wf3 B N a) (i j : ℕ)
    (hi : i < B) (hj : j < N) : ent2 (slice3 a k) i j = ent3 a i j k := by
  obtain ⟨hl, hr⟩ := h
  have hia : i < a.length := by omega
  have hrowlen : a[i].length = N := (hr _ (List.getElem_mem hia)).1
  simp only [ent2, ent3, slice3]
  rw [List.getD_eq_getElem (a.map _) [] (by simpa using hia), List.getElem_map]
  rw [List.getD_eq_getElem _ 0 (by rw [List.length_map, hrowlen]; exact hj), List.getElem_map]
  rw [List.getD_eq_getElem a [] hia, List.getD_eq_getElem a[i] [] (by omega)]

lemma wf2_affineScale (B N : ℕ) (a : Arr2) (s m : ℚ) (h : wf2 B N a) :
    wf2 B N (affineScale a s m) := by
  obtain ⟨hl, hr⟩ := h
  refine ⟨by simp [affineScale, hl], ?_⟩
  intro r hrm
  simp only [affineScale, List.mem_map] at hrm
  obtain ⟨r0, hr0, rfl⟩ := hrm
  simp [hr r0 hr0]

lemma ent2_affineScale (B N : ℕ) (a : Arr2) (s m : ℚ) (h : wf2 B N a) (i j : ℕ)
    (hi : i < B) (hj : j < N) : ent2 (affineScale a s m) i j = ent2 a i j * s + m := by
  obtain ⟨hl, hr⟩ := h
  have hia : i < a.length := by omega
  have hrowlen : a[i].length = N := hr _ (List.getElem_mem hia)
  simp only [ent2, affineScale]
  rw [List.getD_eq_getElem (a.map _) [] (by simpa using hia), List.getElem_map]
  rw [List.getD_eq_getElem _ 0 (by rw [List.length_map, hrowlen]; exact hj), List.getElem_map]
  rw [List.getD_eq_getElem a [] hia, List.getD_eq_getElem a[i] 0 (by omega)]

lemma stack_axis2_mk2 (B N : ℕ) (g1 g2 g3 g4 : ℕ → ℕ → ℚ) :
    stack_axis2 (mk2 B N g1) (mk2 B N g2) (mk2 B N g3) (mk2 B N g4) =
      some ((List.range B).map (fun i => (List.range N).map (fun j =>
        [g1 i j, g2 i j, g3 i j, g4 i j]))) := by
  unfold stack_axis2
  rw [if_pos (by simp [mk2_length, cols_mk2])]
  rw [mk2_length]
  congr 1
  apply List.map_congr_left
  intro i hi
  rw [List.mem_range] at hi
  have hB : ¬ (B = 0) := by omega
  rw [cols_mk2, if_neg hB]
  apply List.map_congr_left
  intro j hj
  rw [List.mem_range] at hj
  rw [ent2_mk2 B N g1 i j hi hj, ent2_mk2 B N g2 i j hi hj, ent2_mk2 B N g3 i j hi hj,
    ent2_mk2 B N g4 i j hi hj]

/-- Master evaluation lemma for the decoder on matching rectangular
(B, N, 4) inputs: it succeeds and every entry follows the delta formula. -/
lemma bbox_eval (B N : ℕ) (boxes deltas : Arr3) (mean std : List ℚ)
    (hb : wf3 B N boxes) (hd : wf3 B N deltas) :
    bbox_transform_inv boxes deltas (some mean) (some std) =
      some ((List.range B).map (fun i => (List.range N).map (fun j =>
        [ent3 boxes i j 0 + (ent3 deltas i j 0 * std.getD 0 0 + mean.getD 0 0) * (ent3 boxes i j 2 - ent3 boxes i j 0),
         ent3 boxes i j 1 + (ent3 deltas i j 1 * std.getD 1 0 + mean.getD 1 0) * (ent3 boxes i j 3 - ent3 boxes i j 1),
         ent3 boxes i j 2 + (ent3 deltas i j 2 * std.getD 2 0 + mean.getD 2 0) * (ent3 boxes i j 2 - ent3 boxes i j 0),
         ent3 boxes i j 3 + (ent3 deltas i j 3 * std.getD 3 0 + mean.getD 3 0) * (ent3 boxes i j 3 - ent3 boxes i j 1)]))) := by
  have hW : binop2 (· - ·) (slice3 boxes 2) (slice3 boxes 0) =
      some (mk2 B N (fun i j => ent3 boxes i j 2 - ent3 boxes i j 0)) :=
    binop2_mk2 (· - ·) B N (slice3 boxes 2) (slice3 boxes 0)
      (fun i j => ent3 boxes i j 2) (fun i j => ent3 boxes i j 0)
      (wf2_slice3 B N boxes 2 hb) (wf2_slice3 B N boxes 0 hb)
      (fun i hi j hj => ent2_slice3 B N boxes 2 hb i j hi hj)
      (fun i hi j hj => ent2_slice3 B N boxes 0 hb i j hi hj)
  have hH : binop2 (· - ·) (slice3 boxes 3) (slice3 boxes 1) =
      some (mk2 B N (fun i j => ent3 boxes i j 3 - ent3 boxes i j 1)) :=
    binop2_mk2 (· - ·) B N (slice3 boxes 3) (slice3 boxes 1)
      (fun i j => ent3 boxes i j 3) (fun i j => ent3 boxes i j 1)
      (wf2_slice3 B N boxes 3 hb) (wf2_slice3 B N boxes 1 hb)
      (fun i hi j hj => ent2_slice3 B N boxes 3 hb i j hi hj)
      (fun i hi j hj => ent2_slice3 B N boxes 1 hb i j hi hj)
  have hT0 : binop2 (· * ·)
      (affineScale (slice3 deltas 0) (std.getD 0 0) (mean.getD 0 0))
      (mk2 B N (fun i j => ent3 boxes i j 2 - ent3 boxes i j 0)) =
      some (mk2 B N (fun i j => (ent3 deltas i j 0 * std.getD 0 0 + mean.getD 0 0) * (ent3 boxes i j 2 - ent3 boxes i j 0))) :=
    binop2_mk2 (· * ·) B N
      (affineScale (slice3 deltas 0) (std.getD 0 0) (mean.getD 0 0))
      (mk2 B N (fun i j => ent3 boxes i j 2 - ent3 boxes i j 0))
      (fun i j => ent3 deltas i j 0 * std.getD 0 0 + mean.getD 0 0)
      (fun i j => ent3 boxes i j 2 - ent3 boxes i j 0)
      (wf2_affineScale B N (slice3 deltas 0) (std.getD 0 0) (mean.getD 0 0)
        (wf2_slice3 B N deltas 0 hd))
      (wf2_mk2 B N (fun i j => ent3 boxes i j 2 - ent3 boxes i j 0))
      (fun i hi j hj => by
        rw [ent2_affineScale B N (slice3 deltas 0) (std.getD 0 0) (mean.getD 0 0)
            (wf2_slice3 B N deltas 0 hd) i j hi hj,
          ent2_slice3 B N deltas 0 hd i j hi hj])
      (fun i hi j hj => ent2_mk2 B N (fun i j => ent3 boxes i j 2 - ent3 boxes i j 0) i j hi hj)
  have hX0 : binop2 (· + ·) (slice3 boxes 0)
      (mk2 B N (fun i j => (ent3 deltas i j 0 * std.getD 0 0 + mean.getD 0 0) * (ent3 boxes i j 2 - ent3 boxes i j 0))) =
      some (mk2 B N (fun i j => ent3 boxes i j 0 + (ent3 deltas i j 0 * std.getD 0 0 + mean.getD 0 0) * (ent3 boxes i j 2 - ent3 boxes i j 0))) :=
    binop2_mk2 (· + ·) B N (slice3 boxes 0)
      (mk2 B N (fun i j => (ent3 deltas i j 0 * std.getD 0 0 + mean.getD 0 0) * (ent3 boxes i j 2 - ent3 boxes i j 0)))
      (fun i j => ent3 boxes i j 0)
      (fun i j => (ent3 deltas i j 0 * std.getD 0 0 + mean.getD 0 0) * (ent3 boxes i j 2 - ent3 boxes i j 0))
      (wf2_slice3 B N boxes 0 hb)
      (wf2_mk2 B N (fun i j => (ent3 deltas i j 0 * std.getD 0 0 + mean.getD 0 0) * (ent3 boxes i j 2 - ent3 boxes i j 0)))
      (fun i hi j hj => ent2_slice3 B N boxes 0 hb i j hi hj)
      (fun i hi j hj => ent2_mk2 B N (fun i j => (ent3 deltas i j 0 * std.getD 0 0 + mean.getD 0 0) * (ent3 boxes i j 2 - ent3 boxes i j 0)) i j hi hj)
  have hT1 : binop2 (· * ·)
      (affineScale (slice3 deltas 1) (std.getD 1 0) (mean.getD 1 0))
      (mk2 B N (fun i j => ent3 boxes i j 3 - ent3 boxes i j 1)) =
      some (mk2 B N (fun i j => (ent3 deltas i j 1 * std.getD 1 0 + mean.getD 1 0) * (ent3 boxes i j 3 - ent3 boxes i j 1))) :=
    binop2_mk2 (· * ·) B N
      (affineScale (slice3 deltas 1) (std.getD 1 0) (mean.getD 1 0))
      (mk2 B N (fun i j => ent3 boxes i j 3 - ent3 boxes i j 1))
      (fun i j => ent3 deltas i j 1 * std.getD 1 0 + mean.getD 1 0)
      (fun i j => ent3 boxes i j 3 - ent3 boxes i j 1)
      (wf2_affineScale B N (slice3 deltas 1) (std.getD 1 0) (mean.getD 1 0)
        (wf2_slice3 B N deltas 1 hd))
      (wf2_mk2 B N (fun i j => ent3 boxes i j 3 - ent3 boxes i j 1))
      (fun i hi j hj => by
        rw [ent2_affineScale B N (slice3 deltas 1) (std.getD 1 0) (mean.getD 1 0)
            (wf2_slice3 B N deltas 1 hd) i j hi hj,
          ent2_slice3 B N deltas 1 hd i j hi hj])
      (fun i hi j hj => ent2_mk2 B N (fun i j => ent3 boxes i j 3 - ent3 boxes i j 1) i j hi hj)
  have hX1 : binop2 (· + ·) (slice3 boxes 1)
      (mk2 B N (fun i j => (ent3 deltas i j 1 * std.getD 1 0 + mean.getD 1 0) * (ent3 boxes i j 3 - ent3 boxes i j 1))) =
      some (mk2 B N (fun i j => ent3 boxes i j 1 + (ent3 deltas i j 1 * std.getD 1 0 + mean.getD 1 0) * (ent3 boxes i j 3 - ent3 boxes i j 1))) :=
    binop2_mk2 (· + ·) B N (slice3 boxes 1)
      (mk2 B N (fun i j => (ent3 deltas i j 1 * std.getD 1 0 + mean.getD 1 0) * (ent3 boxes i j 3 - ent3 boxes i j 1)))
      (fun i j => ent3 boxes i j 1)
      (fun i j => (ent3 deltas i j 1 * std.getD 1 0 + mean.getD 1 0) * (ent3 boxes i j 3 - ent3 boxes i j 1))
      (wf2_slice3 B N boxes 1 hb)
      (wf2_mk2 B N (fun i j => (ent3 deltas i j 1 * std.getD 1 0 + mean.getD 1 0) * (ent3 boxes i j 3 - ent3 boxes i j 1)))
      (fun i hi j hj => ent2_slice3 B N boxes 1 hb i j hi hj)
      (fun i hi j hj => ent2_mk2 B N (fun i j => (ent3 deltas i j 1 * std.getD 1 0 + mean.getD 1 0) * (ent3 boxes i j 3 - ent3 boxes i j 1)) i j hi hj)
  have hT2 : binop2 (· * ·)
      (affineScale (slice3 deltas 2) (std.getD 2 0) (mean.getD 2 0))
      (mk2 B N (fun i j => ent3 boxes i j 2 - ent3 boxes i j 0)) =
      some (mk2 B N (fun i j => (ent3 deltas i j 2 * std.getD 2 0 + mean.getD 2 0) * (ent3 boxes i j 2 - ent3 boxes i j 0))) :=
    binop2_mk2 (· * ·) B N
      (affineScale (slice3 deltas 2) (std.getD 2 0) (mean.getD 2 0))
      (mk2 B N (fun i j => ent3 boxes i j 2 - ent3 boxes i j 0))
      (fun i j => ent3 deltas i j 2 * std.getD 2 0 + mean.getD 2 0)
      (fun i j => ent3 boxes i j 2 - ent3 boxes i j 0)
      (wf2_affineScale B N (slice3 deltas 2) (std.getD 2 0) (mean.getD 2 0)
        (wf2_slice3 B N deltas 2 hd))
      (wf2_mk2 B N (fun i j => ent3 boxes i j 2 - ent3 boxes i j 0))
      (fun i hi j hj => by
        rw [ent2_affineScale B N (slice3 deltas 2) (std.getD 2 0) (mean.getD 2 0)
            (wf2_slice3 B N deltas 2 hd) i j hi hj,
          ent2_slice3 B N deltas 2 hd i j hi hj])
      (fun i hi j hj => ent2_mk2 B N (fun i j => ent3 boxes i j 2 - ent3 boxes i j 0) i j hi hj)
  have hX2 : binop2 (· + ·) (slice3 boxes 2)
      (mk2 B N (fun i j => (ent3 deltas i j 2 * std.getD 2 0 + mean.getD 2 0) * (ent3 boxes i j 2 - ent3 boxes i j 0))) =
      some (mk2 B N (fun i j => ent3 boxes i j 2 + (ent3 deltas i j 2 * std.getD 2 0 + mean.getD 2 0) * (ent3 boxes i j 2 - ent3 boxes i j 0))) :=
    binop2_mk2 (· + ·) B N (slice3 boxes 2)
      (mk2 B N (fun i j => (ent3 deltas i j 2 * std.getD 2 0 + mean.getD 2 0) * (ent3 boxes i j 2 - ent3 boxes i j 0)))
      (fun i j => ent3 boxes i j 2)
      (fun i j => (ent3 deltas i j 2 * std.getD 2 0 + mean.getD 2 0) * (ent3 boxes i j 2 - ent3 boxes i j 0))
      (wf2_slice3 B N boxes 2 hb)
      (wf2_mk2 B N (fun i j => (ent3 deltas i j 2 * std.getD 2 0 + mean.getD 2 0) * (ent3 boxes i j 2 - ent3 boxes i j 0)))
      (fun i hi j hj => ent2_slice3 B N boxes 2 hb i j hi hj)
      (fun i hi j hj => ent2_mk2 B N (fun i j => (ent3 deltas i j 2 * std.getD 2 0 + mean.getD 2 0) * (ent3 boxes i j 2 - ent3 boxes i j 0)) i j hi hj)
  have hT3 : binop2 (· * ·)
      (affineScale (slice3 deltas 3) (std.getD 3 0) (mean.getD 3 0))
      (mk2 B N (fun i j => ent3 boxes i j 3 - ent3 boxes i j 1)) =
      some (mk2 B N (fun i j => (ent3 deltas i j 3 * std.getD 3 0 + mean.getD 3 0) * (ent3 boxes i j 3 - ent3 boxes i j 1))) :=
    binop2_mk2 (· * ·) B N
      (affineScale (slice3 deltas 3) (std.getD 3 0) (mean.getD 3 0))
      (mk2 B N (fun i j => ent3 boxes i j 3 - ent3 boxes i j 1))
      (fun i j => ent3 deltas i j 3 * std.getD 3 0 + mean.getD 3 0)
      (fun i j => ent3 boxes i j 3 - ent3 boxes i j 1)
      (wf2_affineScale B N (slice3 deltas 3) (std.getD 3 0) (mean.getD 3 0)
        (wf2_slice3 B N deltas 3 hd))
      (wf2_mk2 B N (fun i j => ent3 boxes i j 3 - ent3 boxes i j 1))
      (fun i hi j hj => by
        rw [ent2_affineScale B N (slice3 deltas 3) (std.getD 3 0) (mean.getD 3 0)
            (wf2_slice3 B N deltas 3 hd) i j hi hj,
          ent2_slice3 B N deltas 3 hd i j hi hj])
      (fun i hi j hj => ent2_mk2 B N (fun i j => ent3 boxes i j 3 - ent3 boxes i j 1) i j hi hj)
  have hX3 : binop2 (· + ·) (slice3 boxes 3)
      (mk2 B N (fun i j => (ent3 deltas i j 3 * std.getD 3 0 + mean.getD 3 0) * (ent3 boxes i j 3 - ent3 boxes i j 1))) =
      some (mk2 B N (fun i j => ent3 boxes i j 3 + (ent3 deltas i j 3 * std.getD 3 0 + mean.getD 3 0) * (ent3 boxes i j 3 - ent3 boxes i j 1))) :=
    binop2_mk2 (· + ·) B N (slice3 boxes 3)
      (mk2 B N (fun i j => (ent3 deltas i j 3 * std.getD 3 0 + mean.getD 3 0) * (ent3 boxes i j 3 - ent3 boxes i j 1)))
      (fun i j => ent3 boxes i j 3)
      (fun i j => (ent3 deltas i j 3 * std.getD 3 0 + mean.getD 3 0) * (ent3 boxes i j 3 - ent3 boxes i j 1))
      (wf2_slice3 B N boxes 3 hb)
      (wf2_mk2 B N (fun i j => (ent3 deltas i j 3 * std.getD 3 0 + mean.getD 3 0) * (ent3 boxes i j 3 - ent3 boxes i j 1)))
      (fun i hi j hj => ent2_slice3 B N boxes 3 hb i j hi hj)
      (fun i hi j hj => ent2_mk2 B N (fun i j => (ent3 deltas i j 3 * std.getD 3 0 + mean.getD 3 0) * (ent3 boxes i j 3 - ent3 boxes i j 1)) i j hi hj)
  have hstack := stack_axis2_mk2 B N
    (fun i j => ent3 boxes i j 0 + (ent3 deltas i j 0 * std.getD 0 0 + mean.getD 0 0) * (ent3 boxes i j 2 - ent3 boxes i j 0))
    (fun i j => ent3 boxes i j 1 + (ent3 deltas i j 1 * std.getD 1 0 + mean.getD 1 0) * (ent3 boxes i j 3 - ent3 boxes i j 1))
    (fun i j => ent3 boxes i j 2 + (ent3 deltas i j 2 * std.getD 2 0 + mean.getD 2 0) * (ent3 boxes i j 2 - ent3 boxes i j 0))
    (fun i j => ent3 boxes i j 3 + (ent3 deltas i j 3 * std.getD 3 0 + mean.getD 3 0) * (ent3 boxes i j 3 - ent3 boxes i j 1))
  simp only [bbox_transform_inv, Option.getD_some, bind, Option.bind, hW, hH, hT0, hX0,
    hT1, hX1, hT2, hX2, hT3, hX3, hstack]

lemma wf2_mapmap (g : ℚ → ℚ) (B N : ℕ) (a : Arr2) (h : wf2 B N a) :
    wf2 B N (a.map (fun row => row.map g)) := by
  obtain ⟨hl, hr⟩ := h
  refine ⟨by simp [hl], ?_⟩
  intro r hrm
  simp only [List.mem_map] at hrm
  obtain ⟨r0, hr0, rfl⟩ := hrm
  simp [hr r0 hr0]

lemma ent2_mapmap (g : ℚ → ℚ) (B N : ℕ) (a : Arr2) (h : wf2 B N a) (i j : ℕ)
    (hi : i < B) (hj : j < N) :
    ent2 (a.map (fun row => row.map g)) i j = g (ent2 a i j) := by
  obtain ⟨hl, hr⟩ := h
  have hia : i < a.length := by omega
  have hrowlen : a[i].length = N := hr _ (List.getElem_mem hia)
  simp only [ent2]
  rw [List.getD_eq_getElem (a.map _) [] (by simpa using hia), List.getElem_map]
  rw [List.getD_eq_getElem _ 0 (by rw [List.length_map, hrowlen]; exact hj), List.getElem_map]
  rw [List.getD_eq_getElem a [] hia, List.getD_eq_getElem a[i] 0 (by omega)]

lemma getD_map_cast (l : List ℕ) (i : ℕ) :
    (l.map (fun n : ℕ => (n : ℚ))).getD i 0 = ((l.getD i 0 : ℕ) : ℚ) := by
  rcases Nat.lt_or_ge i l.length with hlt | hge
  · rw [List.getD_eq_getElem (l.map _) 0 (by simpa using hlt), List.getElem_map,
      List.getD_eq_getElem l 0 hlt]
  · rw [List.getD_eq_default _ _ (by simpa using hge), List.getD_eq_default _ _ hge]
    simp

/-- Master evaluation lemma for the clipper on a rectangular (B, N, 4) input:
each coordinate is clipped elementwise. -/
lemma clip_eval (cf : Bool) (imageShape : List ℕ) (B N : ℕ) (boxes : Arr3)
    (h : wf3 B N boxes) :
    clipBoxesCall cf imageShape boxes =
      (List.range B).map (fun i => (List.range N).map (fun j =>
        [clip_by_value (ent3 boxes i j 0) 0
            (((imageShape.getD (if cf then 3 else 2) 0 : ℕ) : ℚ) - 1),
         clip_by_value (ent3 boxes i j 1) 0
            (((imageShape.getD (if cf then 2 else 1) 0 : ℕ) : ℚ) - 1),
         clip_by_value (ent3 boxes i j 2) 0
            (((imageShape.getD (if cf then 3 else 2) 0 : ℕ) : ℚ) - 1),
         clip_by_value (ent3 boxes i j 3) 0
            (((imageShape.getD (if cf then 2 else 1) 0 : ℕ) : ℚ) - 1)])) := by
  have hx1 := wf2_mapmap (fun v => clip_by_value v 0
      ((imageShape.map (fun n : ℕ => (n : ℚ))).getD (if cf then 3 else 2) 0 - 1)) B N
      (slice3 boxes 0) (wf2_slice3 B N boxes 0 h)
  simp only [clipBoxesCall]
  rw [hx1.1]
  rcases Nat.eq_zero_or_pos B with hB | hB
  · subst hB
    simp
  · rw [cols_of_wf2 B N _ hx1 hB]
    apply List.map_congr_left
    intro i hi
    rw [List.mem_range] at hi
    apply List.map_congr_left
    intro j hj
    rw [List.mem_range] at hj
    rw [ent2_mapmap _ B N (slice3 boxes 0) (wf2_slice3 B N boxes 0 h) i j hi hj,
      ent2_mapmap _ B N (slice3 boxes 1) (wf2_slice3 B N boxes 1 h) i j hi hj,
      ent2_mapmap _ B N (slice3 boxes 2) (wf2_slice3 B N boxes 2 h) i j hi hj,
      ent2_mapmap _ B N (slice3 boxes 3) (wf2_slice3 B N boxes 3 h) i j hi hj,
      ent2_slice3 B N boxes 0 h i j hi hj, ent2_slice3 B N boxes 1 h i j hi hj,
      ent2_slice3 B N boxes 2 h i j hi hj, ent2_slice3 B N boxes 3 h i j hi hj,
      getD_map_cast, getD_map_cast]

lemma clamp_le_hi (v lo hi : ℚ) (h : lo ≤ hi) : clip_by_value v lo hi ≤ hi := by
  unfold clip_by_value
  exact max_le (min_le_right v hi) h

lemma lo_le_clamp (v lo hi : ℚ) : lo ≤ clip_by_value v lo hi := by
  unfold clip_by_value
  exact le_max_right _ _

lemma clip_idem_pt (v lo hi : ℚ) (h : lo ≤ hi) :
    clip_by_value (clip_by_value v lo hi) lo hi = clip_by_value v lo hi := by
  have h1 := clamp_le_hi v lo hi h
  have h2 := lo_le_clamp v lo hi
  unfold clip_by_value at h1 h2 ⊢
  rw [min_eq_left h1, max_eq_left h2]

lemma clamp_swap (v lo hi : ℚ) (h : lo ≤ hi) :
    clip_by_value v lo hi = min (max v lo) hi := by
  unfold clip_by_value
  simp only [min_def, max_def]
  split_ifs <;> linarith

lemma wf3_canon (B N : ℕ) (g : ℕ → ℕ → List ℚ) (hlen : ∀ i j, (g i j).length = 4) :
    wf3 B N ((List.range B).map (fun i => (List.range N).map (fun j => g i j))) := by
  refine ⟨by simp, ?_⟩
  intro r hr
  simp only [List.mem_map, List.mem_range] at hr
  obtain ⟨i, hi, rfl⟩ := hr
  refine ⟨by simp, ?_⟩
  intro box hbox
  simp only [List.mem_map, List.mem_range] at hbox
  obtain ⟨j, hj, rfl⟩ := hbox
  exact hlen i j

lemma getDgetD_canon (B N : ℕ) (g : ℕ → ℕ → List ℚ) (i j : ℕ) (hi : i < B) (hj : j < N) :
    ((((List.range B).map (fun i => (List.range N).map (fun j => g i j))).getD i []).getD j []) =
      g i j := by
  rw [getD_map_range B _ _ _ hi, getD_map_range N _ _ _ hj]

lemma ent3_canon (B N : ℕ) (g : ℕ → ℕ → List ℚ) (i j k : ℕ) (hi : i < B) (hj : j < N) :
    ent3 ((List.range B).map (fun i => (List.range N).map (fun j => g i j))) i j k =
      (g i j).getD k 0 := by
  simp only [ent3]
  rw [getDgetD_canon B N g i j hi hj]

lemma eq_four_getD (l : List ℚ) (h : l.length = 4) :
    l = [l.getD 0 0, l.getD 1 0, l.getD 2 0, l.getD 3 0] := by
  rcases l with _ | ⟨a, _ | ⟨b, _ | ⟨c, _ | ⟨d, _ | e⟩⟩⟩⟩ <;> simp at h
  rfl

lemma canon_eq_of_entries (B N : ℕ) (a : Arr3) (h : wf3 B N a)
    (g : ℕ → ℕ → List ℚ)
    (hg : ∀ i < B, ∀ j < N, g i j = (a.getD i []).getD j []) :
    ((List.range B).map (fun i => (List.range N).map (fun j => g i j))) = a := by
  apply List.ext_getElem
  · simp [h.1]
  · intro i hi1 hi2
    have hiB : i < B := by simpa using hi1
    have hia : i < a.length := by omega
    simp only [List.getElem_map, List.getElem_range]
    have hrowlen : a[i].length = N := (h.2 _ (List.getElem_mem hia)).1
    apply List.ext_getElem
    · simp [hrowlen]
    · intro j hj1 hj2
      have hjN : j < N := by simpa using hj1
      simp only [List.getElem_map, List.getElem_range]
      rw [hg i hiB j hjN]
      rw [List.getD_eq_getElem a [] hia, List.getD_eq_getElem a[i] [] (by omega)]

lemma pyTupleGe_iff (v m : ℕ × ℕ × ℕ) : pyTupleGe v m = true ↔ lexGe v m := by
  obtain ⟨v1, v2, v3⟩ := v
  obtain ⟨m1, m2, m3⟩ := m
  simp only [pyTupleGe, lexGe]
  split_ifs <;> simp_all <;> omega

/-- Claim C1: for every image shape (H, W), feature shape (Hf, Wf) with
Hf, Wf at least 1, positive stride and non-empty anchor templates, shift
returns exactly Hf*Wf*A boxes, and the box at index k*A + a is
anchor_templates[a] translated by (shift_x, shift_y, shift_x, shift_y) with
shift_x = (k mod Wf)*stride + (W - (Wf - 1)*stride)/2 and
shift_y = (k div Wf)*stride + (H - (Hf - 1)*stride)/2; grid points are
enumerated row-major with the x index varying fastest. -/
theorem shift_spec (H W Hf Wf : ℕ) (stride : ℚ) (anchors : List Box)
    (hHf : 1 ≤ Hf) (hWf : 1 ≤ Wf) (hstride : 0 < stride) (hanchors : anchors ≠ []) :
    (shift (H, W) (Hf, Wf) stride anchors).length = Hf * Wf * anchors.length ∧
    ∀ k a, k < Hf * Wf → a < anchors.length →
      (shift (H, W) (Hf, Wf) stride anchors).getD (k * anchors.length + a) dummyBox =
        { x1 := (anchors.getD a dummyBox).x1 +
            (((k % Wf : ℕ) : ℚ) * stride + ((W : ℚ) - ((Wf : ℚ) - 1) * stride) / 2),
          y1 := (anchors.getD a dummyBox).y1 +
            (((k / Wf : ℕ) : ℚ) * stride + ((H : ℚ) - ((Hf : ℚ) - 1) * stride) / 2),
          x2 := (anchors.getD a dummyBox).x2 +
            (((k % Wf : ℕ) : ℚ) * stride + ((W : ℚ) - ((Wf : ℚ) - 1) * stride) / 2),
          y2 := (anchors.getD a dummyBox).y2 +
            (((k / Wf : ℕ) : ℚ) * stride + ((H : ℚ) - ((Hf : ℚ) - 1) * stride) / 2) } :=
  ⟨shift_length H W Hf Wf stride anchors,
   fun k a hk ha => shift_getD H W Hf Wf stride anchors k a hk ha⟩

/-- Witness for claim C1: a 2x2 grid with stride 2 on a 4x4 image and the
single template (-1, -1, 1, 1); the first output box is (0, 0, 2, 2). -/
theorem shift_spec_witness :
    (shift (4, 4) (2, 2) 2 [⟨-1, -1, 1, 1⟩]).length = 2 * 2 * 1 ∧
    (shift (4, 4) (2, 2) 2 [⟨-1, -1, 1, 1⟩]).getD 0 dummyBox = ⟨0, 0, 2, 2⟩ := by
  have h := shift_spec 4 4 2 2 2 [⟨-1, -1, 1, 1⟩] (by norm_num) (by norm_num)
    (by norm_num) (by simp)
  refine ⟨h.1, ?_⟩
  have h2 := h.2 0 0 (by norm_num) (by simp)
  rw [show (0 : ℕ) * [Box.mk (-1) (-1) 1 1].length + 0 = 0 from by simp] at h2
  rw [h2]
  simp only [List.getD_cons_zero]
  norm_num

/-- Claim C5 (amended): shift performs no input validation at all; for every
input, including zero grid dimensions, a non-positive stride or an empty
anchor-template list, it totally succeeds and returns a (possibly empty,
possibly degenerate) list of exactly Hf*Wf*A boxes instead of raising an
error. -/
theorem shift_no_validation (H W Hf Wf : ℕ) (stride : ℚ) (anchors : List Box) :
    (shift (H, W) (Hf, Wf) stride anchors).length = Hf * Wf * anchors.length :=
  shift_length H W Hf Wf stride anchors

/-- Counterexample for claim C5 as stated: with a zero feature shape, or an
empty anchor-template set, shift does not reject the call; it returns the
degenerate empty output. -/
theorem shift_no_validation_counterexample :
    shift (2, 2) (0, 0) 1 [⟨0, 0, 0, 0⟩] = [] ∧
    shift (2, 2) (1, 1) 1 ([] : List Box) = [] := by
  constructor <;> rfl

/-- Claim C8 (amended): for Hf = Wf = 2, A = 1, stride = 1,
image_shape = (2, 2) and the single template (0, 0, 0, 0), the centering
offsets are offset_x = offset_y = 1/2 (not 0), and the output, row-major,
is [(1/2,1/2,1/2,1/2), (3/2,1/2,3/2,1/2), (1/2,3/2,1/2,3/2),
(3/2,3/2,3/2,3/2)]. -/
theorem shift_concrete_actual :
    ((2 : ℚ) - ((2 : ℚ) - 1) * 1) / 2 = 1 / 2 ∧
    shift (2, 2) (2, 2) 1 [⟨0, 0, 0, 0⟩] =
      [⟨1/2, 1/2, 1/2, 1/2⟩, ⟨3/2, 1/2, 3/2, 1/2⟩,
       ⟨1/2, 3/2, 1/2, 3/2⟩, ⟨3/2, 3/2, 3/2, 3/2⟩] := by
  constructor
  · norm_num
  · norm_num [shift, List.range_succ, Box.mk.injEq]

/-- Counterexample for claim C8 as stated: the output differs from the
claimed integer-coordinate boxes, because the centering offset is 1/2, not
0. -/
theorem shift_concrete_counterexample :
    shift (2, 2) (2, 2) 1 [⟨0, 0, 0, 0⟩] ≠
      [⟨0, 0, 0, 0⟩, ⟨1, 0, 1, 0⟩, ⟨0, 1, 0, 1⟩, ⟨1, 1, 1, 1⟩] := by
  norm_num [shift, List.range_succ, Box.mk.injEq]

/-- Claim C10: tf_version_ok returns true exactly when the version triple is
lexicographically at least the minimum and not blacklisted; under the
defaults, (2,0,0) and (2,0,1) return false although both exceed the minimum
(1,14,0). -/
theorem tf_version_ok_spec :
    (∀ v minimum blacklisted, tf_version_ok v minimum blacklisted = true ↔
      (lexGe v minimum ∧ v ∉ blacklisted)) ∧
    tf_version_ok (2, 0, 0) MINIMUM_TF_VERSION BLACKLISTED_TF_VERSIONS = false ∧
    tf_version_ok (2, 0, 1) MINIMUM_TF_VERSION BLACKLISTED_TF_VERSIONS = false ∧
    lexGe (2, 0, 0) MINIMUM_TF_VERSION ∧ lexGe (2, 0, 1) MINIMUM_TF_VERSION := by
  refine ⟨?_, by decide, by decide, by decide, by decide⟩
  intro v m bl
  rw [tf_version_ok, Bool.and_eq_true, pyTupleGe_iff]
  simp

/-- Claim C2: for matching (B, N, 4) boxes and deltas and 4-element mean and
std, bbox_transform_inv succeeds with an output of the same shape whose entry
for batch element i and box j is
(x1 + (dx1*std0 + mean0)*(x2 - x1), y1 + (dy1*std1 + mean1)*(y2 - y1),
 x2 + (dx2*std2 + mean2)*(x2 - x1), y2 + (dy2*std3 + mean3)*(y2 - y1)). -/
theorem bbox_transform_inv_formula (B N : ℕ) (boxes deltas : Arr3) (mean std : List ℚ)
    (hb : wf3 B N boxes) (hd : wf3 B N deltas) :
    ∃ out, bbox_transform_inv boxes deltas (some mean) (some std) = some out ∧
      wf3 B N out ∧
      ∀ i < B, ∀ j < N,
        (out.getD i []).getD j [] =
          [ent3 boxes i j 0 + (ent3 deltas i j 0 * std.getD 0 0 + mean.getD 0 0) *
              (ent3 boxes i j 2 - ent3 boxes i j 0),
           ent3 boxes i j 1 + (ent3 deltas i j 1 * std.getD 1 0 + mean.getD 1 0) *
              (ent3 boxes i j 3 - ent3 boxes i j 1),
           ent3 boxes i j 2 + (ent3 deltas i j 2 * std.getD 2 0 + mean.getD 2 0) *
              (ent3 boxes i j 2 - ent3 boxes i j 0),
           ent3 boxes i j 3 + (ent3 deltas i j 3 * std.getD 3 0 + mean.getD 3 0) *
              (ent3 boxes i j 3 - ent3 boxes i j 1)] := by
  refine ⟨_, bbox_eval B N boxes deltas mean std hb hd, ?_, ?_⟩
  · exact wf3_canon B N _ (fun i j => rfl)
  · intro i hi j hj
    exact getDgetD_canon B N _ i j hi hj

/-- Witness for claim C2: decoding box (0,0,10,10) with delta (1/2,0,0,0),
mean [0,0,0,0] and std [1,1,1,1] yields (5,0,10,10). -/
theorem bbox_transform_inv_formula_witness :
    (∃ out, bbox_transform_inv [[[0, 0, 10, 10]]] [[[1/2, 0, 0, 0]]]
        (some [0, 0, 0, 0]) (some [1, 1, 1, 1]) = some out ∧
      wf3 1 1 out ∧
      ∀ i < 1, ∀ j < 1,
        (out.getD i []).getD j [] =
          [ent3 [[[0, 0, 10, 10]]] i j 0 +
              (ent3 [[[1/2, 0, 0, 0]]] i j 0 * ([(1 : ℚ), 1, 1, 1]).getD 0 0 +
                ([(0 : ℚ), 0, 0, 0]).getD 0 0) *
              (ent3 [[[0, 0, 10, 10]]] i j 2 - ent3 [[[0, 0, 10, 10]]] i j 0),
           ent3 [[[0, 0, 10, 10]]] i j 1 +
              (ent3 [[[1/2, 0, 0, 0]]] i j 1 * ([(1 : ℚ), 1, 1, 1]).getD 1 0 +
                ([(0 : ℚ), 0, 0, 0]).getD 1 0) *
              (ent3 [[[0, 0, 10, 10]]] i j 3 - ent3 [[[0, 0, 10, 10]]] i j 1),
           ent3 [[[0, 0, 10, 10]]] i j 2 +
              (ent3 [[[1/2, 0, 0, 0]]] i j 2 * ([(1 : ℚ), 1, 1, 1]).getD 2 0 +
                ([(0 : ℚ), 0, 0, 0]).getD 2 0) *
              (ent3 [[[0, 0, 10, 10]]] i j 2 - ent3 [[[0, 0, 10, 10]]] i j 0),
           ent3 [[[0, 0, 10, 10]]] i j 3 +
              (ent3 [[[1/2, 0, 0, 0]]] i j 3 * ([(1 : ℚ), 1, 1, 1]).getD 3 0 +
                ([(0 : ℚ), 0, 0, 0]).getD 3 0) *
              (ent3 [[[0, 0, 10, 10]]] i j 3 - ent3 [[[0, 0, 10, 10]]] i j 1)]) ∧
    bbox_transform_inv [[[0, 0, 10, 10]]] [[[1/2, 0, 0, 0]]] (some [0, 0, 0, 0])
      (some [1, 1, 1, 1]) = some [[[5, 0, 10, 10]]] :=
  ⟨bbox_transform_inv_formula 1 1 [[[0, 0, 10, 10]]] [[[1/2, 0, 0, 0]]]
      [0, 0, 0, 0] [1, 1, 1, 1] (by decide) (by decide),
   by norm_num [bbox_transform_inv, binop2, bcastDim, cols, bget, slice3, affineScale,
     stack_axis2, ent2, bind, Option.bind, List.range_succ]⟩

/-- Claim C7: decoding with all deltas equal to zero and mean [0,0,0,0]
returns the boxes unchanged, for every std. -/
theorem bbox_zero_delta_identity (B N : ℕ) (boxes deltas : Arr3) (std : List ℚ)
    (hb : wf3 B N boxes) (hd : wf3 B N deltas)
    (hz : ∀ i < B, ∀ j < N, ∀ k < 4, ent3 deltas i j k = 0) :
    bbox_transform_inv boxes deltas (some [0, 0, 0, 0]) (some std) = some boxes := by
  rw [bbox_eval B N boxes deltas [0, 0, 0, 0] std hb hd]
  congr 1
  apply canon_eq_of_entries B N boxes hb
  intro i hi j hj
  have hib : i < boxes.length := by
    have := hb.1
    omega
  have hrmem : boxes.getD i [] ∈ boxes := by
    rw [List.getD_eq_getElem _ _ hib]
    exact List.getElem_mem _
  have hrlen := hb.2 _ hrmem
  have hjb : j < (boxes.getD i []).length := by
    rw [hrlen.1]
    exact hj
  have hbmem : (boxes.getD i []).getD j [] ∈ boxes.getD i [] := by
    rw [List.getD_eq_getElem _ _ hjb]
    exact List.getElem_mem _
  have hrow : ((boxes.getD i []).getD j []).length = 4 := hrlen.2 _ hbmem
  rw [hz i hi j hj 0 (by norm_num), hz i hi j hj 1 (by norm_num),
    hz i hi j hj 2 (by norm_num), hz i hi j hj 3 (by norm_num)]
  simp only [List.getD_cons_zero, List.getD_cons_succ, zero_mul, add_zero, zero_add]
  conv_rhs => rw [eq_four_getD ((boxes.getD i []).getD j []) hrow]
  simp only [ent3]

/-- Witness for claim C7: a single box (1,2,3,4) with zero delta and
std [5,6,7,8] decodes to itself. -/
theorem bbox_zero_delta_identity_witness :
    bbox_transform_inv [[[1, 2, 3, 4]]] [[[0, 0, 0, 0]]] (some [0, 0, 0, 0])
      (some [5, 6, 7, 8]) = some [[[1, 2, 3, 4]]] :=
  bbox_zero_delta_identity 1 1 [[[1, 2, 3, 4]]] [[[0, 0, 0, 0]]] [5, 6, 7, 8]
    (by decide) (by decide) (by decide)

/-- Claim C9: when std has a zero at coordinate kk, the decoded output at
coordinate kk does not depend on the deltas (two runs with different deltas
of the same shape agree there), and no error is raised. -/
theorem bbox_std_zero_insensitive (B N : ℕ) (boxes d1 d2 : Arr3) (mean std : List ℚ)
    (kk : ℕ) (hb : wf3 B N boxes) (h1 : wf3 B N d1) (h2 : wf3 B N d2)
    (hkk : kk < 4) (hstd : std.getD kk 0 = 0) :
    ∃ out1 out2,
      bbox_transform_inv boxes d1 (some mean) (some std) = some out1 ∧
      bbox_transform_inv boxes d2 (some mean) (some std) = some out2 ∧
      ∀ i < B, ∀ j < N, ent3 out1 i j kk = ent3 out2 i j kk := by
  refine ⟨_, _, bbox_eval B N boxes d1 mean std hb h1,
    bbox_eval B N boxes d2 mean std hb h2, ?_⟩
  intro i hi j hj
  rw [ent3_canon B N _ i j kk hi hj, ent3_canon B N _ i j kk hi hj]
  rw [List.getD_eq_getElem?_getD] at hstd
  interval_cases kk <;> simp [hstd]

/-- Witness for claim C9: std [0,1,1,1] makes the decoded x1 coordinate
ignore the deltas entirely. -/
theorem bbox_std_zero_insensitive_witness :
    ∃ out1 out2,
      bbox_transform_inv [[[0, 0, 10, 10]]] [[[1, 2, 3, 4]]] (some [0, 0, 0, 0])
        (some [0, 1, 1, 1]) = some out1 ∧
      bbox_transform_inv [[[0, 0, 10, 10]]] [[[9, 9, 9, 9]]] (some [0, 0, 0, 0])
        (some [0, 1, 1, 1]) = some out2 ∧
      ∀ i < 1, ∀ j < 1, ent3 out1 i j 0 = ent3 out2 i j 0 :=
  bbox_std_zero_insensitive 1 1 [[[0, 0, 10, 10]]] [[[1, 2, 3, 4]]] [[[9, 9, 9, 9]]]
    [0, 0, 0, 0] [0, 1, 1, 1] 0 (by decide) (by decide) (by decide) (by decide) (by decide)

/-- Counterexample for claim C4 as stated: boxes of shape (1,1,4) and deltas
of shape (1,3,4) have different shapes, yet the decoder silently broadcasts
and produces an output instead of rejecting the call. -/
theorem decoder_shape_mismatch_counterexample :
    (([[[0, 0, 10, 10]]] : Arr3).getD 0 []).length = 1 ∧
    (([[[0, 0, 0, 0], [0, 0, 0, 0], [0, 0, 0, 0]]] : Arr3).getD 0 []).length = 3 ∧
    bbox_transform_inv [[[0, 0, 10, 10]]] [[[0, 0, 0, 0], [0, 0, 0, 0], [0, 0, 0, 0]]]
        none none =
      some [[[0, 0, 10, 10], [0, 0, 10, 10], [0, 0, 10, 10]]] := by
  refine ⟨rfl, rfl, ?_⟩
  norm_num [bbox_transform_inv, binop2, bcastDim, cols, bget, slice3, affineScale,
    stack_axis2, ent2, bind, Option.bind, List.range_succ]

/-- Claim C4 (amended): the decoder has no eager shape check; mismatched
shapes whose per-coordinate slices are broadcast-incompatible (such as
boxes (B,3,4) against deltas (B,4,4)) fail with an error inside the
elementwise arithmetic, while broadcast-compatible mismatches (such as
boxes (1,1,4) against deltas (1,3,4)) are silently broadcast. -/
theorem decoder_broadcast_incompatible (B : ℕ) (boxes deltas : Arr3)
    (hb : wf3 B 3 boxes) (hd : wf3 B 4 deltas) (hB : 0 < B) :
    bbox_transform_inv boxes deltas none none = none := by
  have hW : binop2 (· - ·) (slice3 boxes 2) (slice3 boxes 0) =
      some (mk2 B 3 (fun i j => ent3 boxes i j 2 - ent3 boxes i j 0)) :=
    binop2_mk2 (· - ·) B 3 (slice3 boxes 2) (slice3 boxes 0)
      (fun i j => ent3 boxes i j 2) (fun i j => ent3 boxes i j 0)
      (wf2_slice3 B 3 boxes 2 hb) (wf2_slice3 B 3 boxes 0 hb)
      (fun i hi j hj => ent2_slice3 B 3 boxes 2 hb i j hi hj)
      (fun i hi j hj => ent2_slice3 B 3 boxes 0 hb i j hi hj)
  have hH : binop2 (· - ·) (slice3 boxes 3) (slice3 boxes 1) =
      some (mk2 B 3 (fun i j => ent3 boxes i j 3 - ent3 boxes i j 1)) :=
    binop2_mk2 (· - ·) B 3 (slice3 boxes 3) (slice3 boxes 1)
      (fun i j => ent3 boxes i j 3) (fun i j => ent3 boxes i j 1)
      (wf2_slice3 B 3 boxes 3 hb) (wf2_slice3 B 3 boxes 1 hb)
      (fun i hi j hj => ent2_slice3 B 3 boxes 3 hb i j hi hj)
      (fun i hi j hj => ent2_slice3 B 3 boxes 1 hb i j hi hj)
  have haff : wf2 B 4 (affineScale (slice3 deltas 0) (1/5 : ℚ) 0) :=
    wf2_affineScale B 4 (slice3 deltas 0) (1/5 : ℚ) 0 (wf2_slice3 B 4 deltas 0 hd)
  have ht : binop2 (· * ·) (affineScale (slice3 deltas 0) (1/5 : ℚ) 0)
      (mk2 B 3 (fun i j => ent3 boxes i j 2 - ent3 boxes i j 0)) = none := by
    have hca : cols (affineScale (slice3 deltas 0) (1/5 : ℚ) 0) = 4 :=
      cols_of_wf2 B 4 _ haff hB
    have hcb : cols (mk2 B 3 (fun i j => ent3 boxes i j 2 - ent3 boxes i j 0)) = 3 := by
      rw [cols_mk2]
      have : ¬ (B = 0) := by omega
      rw [if_neg this]
    unfold binop2
    rw [haff.1, (wf2_mk2 B 3 (fun i j => ent3 boxes i j 2 - ent3 boxes i j 0)).1, hca, hcb]
    simp [bcastDim]
  simp only [bbox_transform_inv, Option.getD_none, List.getD_cons_zero, bind, Option.bind,
    hW, hH, ht]

/-- Witness for the amended claim C4: concrete (1,3,4) boxes against (1,4,4)
deltas make the decode fail. -/
theorem decoder_broadcast_incompatible_witness :
    bbox_transform_inv [[[0, 0, 10, 10], [0, 0, 2, 2], [1, 1, 3, 3]]]
      [[[0, 0, 0, 0], [0, 0, 0, 0], [0, 0, 0, 0], [0, 0, 0, 0]]] none none = none :=
  decoder_broadcast_incompatible 1 [[[0, 0, 10, 10], [0, 0, 2, 2], [1, 1, 3, 3]]]
    [[[0, 0, 0, 0], [0, 0, 0, 0], [0, 0, 0, 0], [0, 0, 0, 0]]]
    (by decide) (by decide) (by decide)

/-- Claim C3: each coordinate of every output box of the clipper is the
clamp of the corresponding input coordinate taken independently, x1 and x2
to [0, W-1] and y1 and y2 to [0, H-1], with no swapping of inverted
coordinates; H and W are the spatial entries of the image shape selected by
the channel ordering. -/
theorem clipBoxes_pointwise_clamp (cf : Bool) (imageShape : List ℕ) (B N H W : ℕ)
    (boxes : Arr3) (hb : wf3 B N boxes)
    (hH : imageShape.getD (if cf then 2 else 1) 0 = H)
    (hW : imageShape.getD (if cf then 3 else 2) 0 = W)
    (hH1 : 1 ≤ H) (hW1 : 1 ≤ W) :
    ∀ i < B, ∀ j < N,
      ((clipBoxesCall cf imageShape boxes).getD i []).getD j [] =
        [min (max (ent3 boxes i j 0) 0) ((W : ℚ) - 1),
         min (max (ent3 boxes i j 1) 0) ((H : ℚ) - 1),
         min (max (ent3 boxes i j 2) 0) ((W : ℚ) - 1),
         min (max (ent3 boxes i j 3) 0) ((H : ℚ) - 1)] := by
  intro i hi j hj
  rw [clip_eval cf imageShape B N boxes hb]
  rw [getDgetD_canon B N _ i j hi hj]
  rw [hH, hW]
  have h1 : (0 : ℚ) ≤ (W : ℚ) - 1 := by
    have : (1 : ℚ) ≤ (W : ℚ) := by exact_mod_cast hW1
    linarith
  have h2 : (0 : ℚ) ≤ (H : ℚ) - 1 := by
    have : (1 : ℚ) ≤ (H : ℚ) := by exact_mod_cast hH1
    linarith
  rw [clamp_swap _ _ _ h1, clamp_swap _ _ _ h2, clamp_swap _ _ _ h1, clamp_swap _ _ _ h2]

/-- Witness for claim C3: on a 10x10 image (channels_last shape
[1,10,10,3]) the box (-5,-5,15,15) clips to (0,0,9,9). -/
theorem clipBoxes_pointwise_clamp_witness :
    (∀ i < 1, ∀ j < 1,
      ((clipBoxesCall false [1, 10, 10, 3] [[[-5, -5, 15, 15]]]).getD i []).getD j [] =
        [min (max (ent3 [[[-5, -5, 15, 15]]] i j 0) 0) ((10 : ℚ) - 1),
         min (max (ent3 [[[-5, -5, 15, 15]]] i j 1) 0) ((10 : ℚ) - 1),
         min (max (ent3 [[[-5, -5, 15, 15]]] i j 2) 0) ((10 : ℚ) - 1),
         min (max (ent3 [[[-5, -5, 15, 15]]] i j 3) 0) ((10 : ℚ) - 1)]) ∧
    clipBoxesCall false [1, 10, 10, 3] [[[-5, -5, 15, 15]]] = [[[0, 0, 9, 9]]] :=
  ⟨clipBoxes_pointwise_clamp false [1, 10, 10, 3] 1 1 10 10 [[[-5, -5, 15, 15]]]
      (by decide) (by decide) (by decide) (by decide) (by decide),
   by norm_num [clipBoxesCall, clip_by_value, slice3, ent2, cols, List.range_succ]⟩

/-- Claim C6: for spatial dimensions H, W at least 1, the clipper output is
shape-preserving (a rectangular (B, N, 4) tensor), every x coordinate lies
in [0, W-1] and every y coordinate in [0, H-1], and clipping is
idempotent. -/
theorem clipBoxes_bounds_shape_idem (cf : Bool) (imageShape : List ℕ) (B N H W : ℕ)
    (boxes : Arr3) (hb : wf3 B N boxes)
    (hH : imageShape.getD (if cf then 2 else 1) 0 = H)
    (hW : imageShape.getD (if cf then 3 else 2) 0 = W)
    (hH1 : 1 ≤ H) (hW1 : 1 ≤ W) :
    wf3 B N (clipBoxesCall cf imageShape boxes) ∧
    (∀ i < B, ∀ j < N, ∀ k, k < 4 →
      0 ≤ ent3 (clipBoxesCall cf imageShape boxes) i j k ∧
      ent3 (clipBoxesCall cf imageShape boxes) i j k ≤
        (if k = 0 ∨ k = 2 then (W : ℚ) else (H : ℚ)) - 1) ∧
    clipBoxesCall cf imageShape (clipBoxesCall cf imageShape boxes) =
      clipBoxesCall cf imageShape boxes := by
  have h1 : (0 : ℚ) ≤ (W : ℚ) - 1 := by
    have : (1 : ℚ) ≤ (W : ℚ) := by exact_mod_cast hW1
    linarith
  have h2 : (0 : ℚ) ≤ (H : ℚ) - 1 := by
    have : (1 : ℚ) ≤ (H : ℚ) := by exact_mod_cast hH1
    linarith
  have hev := clip_eval cf imageShape B N boxes hb
  refine ⟨?_, ?_, ?_⟩
  · rw [hev]
    exact wf3_canon B N _ (fun i j => rfl)
  · intro i hi j hj k hk
    rw [hev, ent3_canon B N _ i j k hi hj, hH, hW]
    interval_cases k
    · simp only [List.getD_cons_zero]
      refine ⟨lo_le_clamp _ _ _, ?_⟩
      rw [if_pos (by norm_num)]
      exact clamp_le_hi _ _ _ h1
    · simp only [List.getD_cons_succ, List.getD_cons_zero]
      refine ⟨lo_le_clamp _ _ _, ?_⟩
      rw [if_neg (by norm_num)]
      exact clamp_le_hi _ _ _ h2
    · simp only [List.getD_cons_succ, List.getD_cons_zero]
      refine ⟨lo_le_clamp _ _ _, ?_⟩
      rw [if_pos (by norm_num)]
      exact clamp_le_hi _ _ _ h1
    · simp only [List.getD_cons_succ, List.getD_cons_zero]
      refine ⟨lo_le_clamp _ _ _, ?_⟩
      rw [if_neg (by norm_num)]
      exact clamp_le_hi _ _ _ h2
  · have hwfout : wf3 B N (clipBoxesCall cf imageShape boxes) := by
      rw [hev]
      exact wf3_canon B N _ (fun i j => rfl)
    rw [clip_eval cf imageShape B N (clipBoxesCall cf imageShape boxes) hwfout, hev]
    apply List.map_congr_left
    intro i hi
    rw [List.mem_range] at hi
    apply List.map_congr_left
    intro j hj
    rw [List.mem_range] at hj
    rw [ent3_canon B N _ i j 0 hi hj, ent3_canon B N _ i j 1 hi hj,
      ent3_canon B N _ i j 2 hi hj, ent3_canon B N _ i j 3 hi hj]
    simp only [List.getD_cons_zero, List.getD_cons_succ]
    rw [hH, hW]
    rw [clip_idem_pt _ _ _ h1, clip_idem_pt _ _ _ h2, clip_idem_pt _ _ _ h1,
      clip_idem_pt _ _ _ h2]

/-- Witness for claim C6: a 5x7 image (channels_last shape [1,5,7,3]) and a
single out-of-range box; the output is in range, shape is preserved, and
clipping twice equals clipping once. -/
theorem clipBoxes_bounds_shape_idem_witness :
    wf3 1 1 (clipBoxesCall false [1, 5, 7, 3] [[[-2, 10, 8, 3]]]) ∧
    (∀ i < 1, ∀ j < 1, ∀ k, k < 4 →
      0 ≤ ent3 (clipBoxesCall false [1, 5, 7, 3] [[[-2, 10, 8, 3]]]) i j k ∧
      ent3 (clipBoxesCall false [1, 5, 7, 3] [[[-2, 10, 8, 3]]]) i j k ≤
        (if k = 0 ∨ k = 2 then (7 : ℚ) else (5 : ℚ)) - 1) ∧
    clipBoxesCall false [1, 5, 7, 3] (clipBoxesCall false [1, 5, 7, 3] [[[-2, 10, 8, 3]]]) =
      clipBoxesCall false [1, 5, 7, 3] [[[-2, 10, 8, 3]]] :=
  clipBoxes_bounds_shape_idem false [1, 5, 7, 3] 1 1 5 7 [[[-2, 10, 8, 3]]]
    (by decide) (by decide) (by decide) (by decide) (by decide)
